import Mathlib

/-!
Shallow embedding of the RAG app core (`main.py`): the in-process source
registry (`added_sources`), the optional vector-store collection handle
(`collection`), and the operations `get_sources`, `clear_all_sources`,
`delete_source`, `add_texts_to_chroma` and `chat`.

External capabilities (the `RecursiveCharacterTextSplitter`, the
sentence-transformer embedder, and the vector distance used by Chroma's
similarity query) are parameters of the operations: the theorems hold for
every instantiation, and sample instantiations are provided for concrete
evaluation.  Opaque uuid identifiers are modelled by a fresh-id counter
in the state.  Python `HTTPException(status, detail)` is modelled by the
`HTTPError` structure carried on the `Except` error channel; an operation
that raises before mutating returns `Except.error`, leaving the caller's
state untouched.
-/

namespace RAGApp

/-- One record held by the Chroma collection: id, embedding, document text
and the metadata `source` / `type` written by `add_texts_to_chroma`. -/
structure ChunkRecord where
  rid : Nat
  embedding : List Int
  document : String
  source : String
  srcType : String
deriving Repr, DecidableEq

/-- One entry of the in-memory `added_sources` list:
`{"id": ..., "name": ..., "type": ...}`. -/
structure Source where
  sid : Nat
  name : String
  srcType : String
deriving Repr, DecidableEq

/-- The vector-store collection: the multiset of records it holds,
in insertion order. -/
structure Collection where
  records : List ChunkRecord
deriving Repr, DecidableEq

/-- Python `HTTPException(status_code, detail)`. -/
structure HTTPError where
  status : Nat
  detail : String
deriving Repr, DecidableEq

/-- The module-level mutable state of `main.py`: the optional collection
handle (`None` when the Chroma environment variables are missing), the
`added_sources` list, and a counter supplying fresh opaque ids
(modelling `uuid.uuid4()`). -/
structure AppState where
  collection : Option Collection
  added_sources : List Source
  nextId : Nat
deriving Repr, DecidableEq

/-- A chat message `{role, content}` (`ChatMessage` in `main.py`). -/
structure ChatMessage where
  role : String
  content : String
deriving Repr, DecidableEq

/-- A chat request `{message, history}` (`ChatRequest` in `main.py`). -/
structure ChatRequest where
  message : String
  history : List ChatMessage
deriving Repr, DecidableEq

/-- Python `str.strip()`: drops leading and trailing whitespace
characters (structural model over the string's character list). -/
def strip (s : String) : String :=
  ⟨((s.data.dropWhile Char.isWhitespace).reverse.dropWhile Char.isWhitespace).reverse⟩

/-- `GET /api/sources`: returns the `added_sources` list. -/
def get_sources (st : AppState) : List Source :=
  st.added_sources

/-- `collection.delete` by metadata predicate source == name: removes every record whose
metadata `source` equals `name`; a miss is a no-op. -/
def deleteWhereSource (c : Collection) (name : String) : Collection :=
  ⟨c.records.filter (fun r => r.source ≠ name)⟩

/-- `DELETE /api/sources` (`clear_all_sources`): when the collection is
initialized, issues one metadata delete per recorded source name, then
empties `added_sources`; when it is not initialized, only empties the list.
(The Chroma backend itself is assumed reachable; its own network failures
are outside the model.) -/
def clear_all_sources (st : AppState) : AppState :=
  match st.collection with
  | some col =>
      { st with
        collection := some (st.added_sources.foldl (fun c s => deleteWhereSource c s.name) col)
        added_sources := [] }
  | none => { st with added_sources := [] }

/-- `DELETE /api/sources/id` (`delete_source`): finds the source by id
(404 if absent); when the collection is initialized, deletes every record
whose metadata `source` equals the found source's name; then filters the
source out of `added_sources` by id. -/
def delete_source (st : AppState) (source_id : Nat) : Except HTTPError AppState :=
  match st.added_sources.find? (fun s => s.sid == source_id) with
  | none => .error ⟨404, "Source not found."⟩
  | some source_to_delete =>
      let source_name := source_to_delete.name
      let col' := st.collection.map (fun c => deleteWhereSource c source_name)
      .ok { st with
            collection := col'
            added_sources := st.added_sources.filter (fun s => s.sid != source_id) }

/-- `add_texts_to_chroma(text, source_name, source_type)`: 500 if the
collection is not initialized; 400 if `text` is blank after stripping;
splits the text (external `RecursiveCharacterTextSplitter`, the parameter
`split`); 400 if the split is empty; embeds the chunks (external model,
the parameter `encode`, contracted to return one vector per input text);
adds one record per chunk with metadata `source` / `type` and a fresh id
each; appends one fresh-id source entry; returns the number of chunks. -/
def add_texts_to_chroma (split : String → List String)
    (encode : List String → List (List Int))
    (st : AppState) (text source_name source_type : String) :
    Except HTTPError (Nat × AppState) :=
  match st.collection with
  | none => .error ⟨500, "Chroma DB collection is not initialized."⟩
  | some col =>
      if strip text = "" then .error ⟨400, "No extractable text found."⟩
      else
        let splits := split text
        if splits = [] then .error ⟨400, "Text couldn't be chunked."⟩
        else
          let embeddings := encode splits
          let newRecords := (List.range splits.length).map (fun i =>
            { rid := st.nextId + i
              embedding := embeddings.getD i []
              document := splits.getD i ""
              source := source_name
              srcType := source_type : ChunkRecord })
          let col' : Collection := ⟨col.records ++ newRecords⟩
          let newSource : Source := ⟨st.nextId + splits.length, source_name, source_type⟩
          .ok (splits.length,
               { collection := some col'
                 added_sources := st.added_sources ++ [newSource]
                 nextId := st.nextId + splits.length + 1 })

/-- `collection.query(query_embeddings, n_results)`: the records sorted by
ascending distance to the query embedding (the distance function `d` is
the external store's metric), truncated to `k`. -/
def collectionQuery (d : List Int → List Int → Int) (col : Collection)
    (e : List Int) (k : Nat) : List ChunkRecord :=
  (col.records.insertionSort (fun a b => d e a.embedding ≤ d e b.embedding)).take k

/-- The fixed prompt template of `chat`, instantiated with the assembled
context and the user question. -/
def buildPrompt (context_text question : String) : String :=
  "You are an intelligent assistant. Use the following context documents to answer the user's question. If the context does not contain the answer, say you don't know based on the provided documents.\n\nContext:\n"
    ++ context_text ++ "\n\nUser Question: " ++ question ++ "\n\nAnswer:"

/-- `POST /api/chat` (`chat`), up to the external generator call: 500 if the
collection is not initialized; embeds `req.message` (single-element batch);
retrieves the top 5 records; joins their document texts with the separator
in retrieval order into the context; assembles the fixed-template prompt.
Returns the retrieved records and the grounded prompt (the Ollama call
consuming the prompt is an external collaborator). -/
def chat (encode : List String → List (List Int))
    (d : List Int → List Int → Int)
    (st : AppState) (req : ChatRequest) :
    Except HTTPError (List ChunkRecord × String) :=
  match st.collection with
  | none => .error ⟨500, "Chroma DB collection is not initialized."⟩
  | some col =>
      let query_embedding := (encode [req.message]).getD 0 []
      let results := collectionQuery d col query_embedding 5
      let doc_list := results.map (fun r => r.document)
      let context_text := String.intercalate "\n\n---\n\n" doc_list
      .ok (results, buildPrompt context_text req.message)

/-- Splits a character list at each occurrence of the separator
character. -/
def splitChars (sep : Char) : List Char → List (List Char)
  | [] => [[]]
  | c :: cs =>
      match splitChars sep cs with
      | [] => if c = sep then [[], []] else [[c]]
      | r :: rs => if c = sep then [] :: r :: rs else (c :: r) :: rs

/-- Sample splitter instantiation for concrete evaluation: splits at
newline characters and drops blank pieces (the real splitter is the
external `RecursiveCharacterTextSplitter(1000, 100)`; every theorem is
proved for an arbitrary splitter). -/
def sampleSplit (s : String) : List String :=
  ((splitChars '\n' s.data).map (fun l => (⟨l⟩ : String))).filter (fun t => strip t ≠ "")

/-- Sample embedder instantiation for concrete evaluation: the length of
each text as a one-dimensional vector. -/
def sampleEncode (texts : List String) : List (List Int) :=
  texts.map (fun t => [(t.length : Int)])

/-- Sample distance instantiation for concrete evaluation: squared
euclidean distance on the first coordinate. -/
def sampleDist (a b : List Int) : Int :=
  (a.getD 0 0 - b.getD 0 0) * (a.getD 0 0 - b.getD 0 0)

/-! Concrete sample states used to instantiate the theorems. -/

/-- A sample chunk record of source `a.txt`. -/
def recA : ChunkRecord := ⟨10, [3], "alpha", "a.txt", "file"⟩

/-- A sample chunk record of source `b.txt`. -/
def recB : ChunkRecord := ⟨11, [5], "beta", "b.txt", "file"⟩

/-- Sample registry entry for `a.txt`. -/
def srcA : Source := ⟨0, "a.txt", "file"⟩

/-- Sample registry entry for `b.txt`. -/
def srcB : Source := ⟨1, "b.txt", "file"⟩

/-- A sample state with an initialized collection holding two sources. -/
def stAB : AppState := ⟨some ⟨[recA, recB]⟩, [srcA, srcB], 20⟩

/-- A sample state whose collection was never initialized but whose
registry holds one source. -/
def stNoCol : AppState := ⟨none, [⟨0, "a.txt", "file"⟩], 5⟩

/-- A sample state with an initialized, empty collection and an empty
registry. -/
def stEmptyCol : AppState := ⟨some ⟨[]⟩, [], 0⟩

/-- Two registry entries sharing the name `dup.txt` under distinct ids,
with one chunk record each, as produced by ingesting the same name twice. -/
def stDup : AppState :=
  ⟨some ⟨[⟨10, [1], "d-one", "dup.txt", "file"⟩, ⟨11, [2], "d-two", "dup.txt", "file"⟩]⟩,
   [⟨0, "dup.txt", "file"⟩, ⟨1, "dup.txt", "file"⟩], 20⟩

/-- The state produced by `delete_source stAB 0`. -/
def stAB' : AppState := ⟨some ⟨[recB]⟩, [srcB], 20⟩

/-- The state produced by ingesting "hello" as `doc.txt` into `stAB`. -/
def stC4' : AppState :=
  ⟨some ⟨[recA, recB, ⟨20, [5], "hello", "doc.txt", "file"⟩]⟩,
   [srcA, srcB, ⟨21, "doc.txt", "file"⟩], 22⟩

/-- The state produced by ingesting the one-chunk text "one" as `doc.txt`
into `stEmptyCol`. -/
def stC5a : AppState :=
  ⟨some ⟨[⟨0, [3], "one", "doc.txt", "file"⟩]⟩, [⟨1, "doc.txt", "file"⟩], 2⟩

/-- The state produced by ingesting the two-chunk text joined by a blank
line as `doc.txt` into `stEmptyCol`. -/
def stC5b : AppState :=
  ⟨some ⟨[⟨0, [3], "one", "doc.txt", "file"⟩, ⟨1, [3], "two", "doc.txt", "file"⟩]⟩,
   [⟨2, "doc.txt", "file"⟩], 3⟩

/-- The state produced by `delete_source stDup 0`. -/
def stDup' : AppState := ⟨some ⟨[]⟩, [⟨1, "dup.txt", "file"⟩], 20⟩

/-! Shared inversion and membership lemmas. -/

/-- Every record returned by a similarity query is a record of the
collection. -/
theorem mem_of_mem_collectionQuery {d : List Int → List Int → Int}
    {col : Collection} {e : List Int} {k : Nat} {r : ChunkRecord}
    (h : r ∈ collectionQuery d col e k) : r ∈ col.records :=
  (List.mem_insertionSort _).mp (List.mem_of_mem_take h)

/-- Records surviving a metadata delete never carry the deleted source
name. -/
theorem mem_deleteWhereSource {c : Collection} {nm : String} {r : ChunkRecord}
    (h : r ∈ (deleteWhereSource c nm).records) : r.source ≠ nm := by
  simp only [deleteWhereSource, List.mem_filter, decide_not] at h
  simpa using h.2

/-- Inversion of a successful `delete_source`: the result state is the
input with the found source's records deleted from the collection and the
source filtered out of the registry. -/
theorem delete_source_ok_elim {st st' : AppState} {sid : Nat} {src : Source}
    (hfind : st.added_sources.find? (fun s => s.sid == sid) = some src)
    (hdel : delete_source st sid = .ok st') :
    st' = { st with
            collection := st.collection.map (fun c => deleteWhereSource c src.name)
            added_sources := st.added_sources.filter (fun s => s.sid != sid) } := by
  simp only [delete_source, hfind] at hdel
  exact (Except.ok.inj hdel).symm

/-- Inversion of a successful `add_texts_to_chroma`: the collection was
initialized, the stripped text and the split were non-empty, the returned
count is the number of chunks, and the result state appends the new
records and one new source entry. -/
theorem add_texts_ok_elim {split : String → List String}
    {encode : List String → List (List Int)}
    {st : AppState} {text nm knd : String} {n : Nat} {st' : AppState}
    (h : add_texts_to_chroma split encode st text nm knd = .ok (n, st')) :
    ∃ col, st.collection = some col ∧ strip text ≠ "" ∧ split text ≠ [] ∧
      n = (split text).length ∧
      st' = { collection := some ⟨col.records ++ (List.range (split text).length).map (fun i =>
                { rid := st.nextId + i
                  embedding := (encode (split text)).getD i []
                  document := (split text).getD i ""
                  source := nm
                  srcType := knd : ChunkRecord })⟩
              added_sources := st.added_sources ++ [⟨st.nextId + (split text).length, nm, knd⟩]
              nextId := st.nextId + (split text).length + 1 } := by
  unfold add_texts_to_chroma at h
  split at h
  · exact absurd h (by simp)
  next col hc =>
    split at h
    · exact absurd h (by simp)
    next hblank =>
      dsimp only at h
      split at h
      · exact absurd h (by simp)
      next hsplit =>
        have hp := Prod.mk.injEq .. ▸ Except.ok.inj h
        exact ⟨col, hc, hblank, hsplit, hp.1.symm, hp.2.symm⟩

/-- Inversion of a successful `chat`: the collection was initialized and
the returned records are the top-5 similarity query at the message's
embedding. -/
theorem chat_ok_elim {encode : List String → List (List Int)}
    {d : List Int → List Int → Int} {st : AppState} {req : ChatRequest}
    {results : List ChunkRecord} {prompt : String}
    (h : chat encode d st req = .ok (results, prompt)) :
    ∃ col, st.collection = some col ∧
      results = collectionQuery d col ((encode [req.message]).getD 0 []) 5 := by
  unfold chat at h
  split at h
  · exact absurd h (by simp)
  next col hc =>
    have hp := Prod.mk.injEq .. ▸ Except.ok.inj h
    exact ⟨col, hc, hp.1.symm⟩

/-! The claims. -/

/-- Claim C1: after a successful `delete_source id`, the listing no longer
contains an entry with that id, every collection record carrying the
deleted source's name has been removed, and a subsequent `chat` never
returns a record whose metadata source equals that name. -/
theorem delete_source_consistency
    (st st' : AppState) (sid : Nat) (src : Source)
    (hfind : st.added_sources.find? (fun s => s.sid == sid) = some src)
    (hdel : delete_source st sid = .ok st') :
    (∀ s ∈ get_sources st', s.sid ≠ sid) ∧
    (∀ c', st'.collection = some c' → ∀ r ∈ c'.records, r.source ≠ src.name) ∧
    (∀ encode d req results prompt,
      chat encode d st' req = .ok (results, prompt) →
      ∀ r ∈ results, r.source ≠ src.name) := by
  have hst' := delete_source_ok_elim hfind hdel
  have hrecs : ∀ c', st'.collection = some c' → ∀ r ∈ c'.records, r.source ≠ src.name := by
    intro c' hc' r hr
    rw [hst'] at hc'
    cases hcol : st.collection with
    | none => rw [hcol] at hc'; exact absurd hc' (by simp)
    | some c =>
        rw [hcol] at hc'
        have hceq : deleteWhereSource c src.name = c' := Option.some.inj hc'
        rw [← hceq] at hr
        exact mem_deleteWhereSource hr
  refine ⟨?_, hrecs, ?_⟩
  · intro s hs
    rw [hst'] at hs
    simp only [get_sources] at hs
    have := (List.mem_filter.mp hs).2
    simpa using this
  · intro encode d req results prompt hchat r hr
    obtain ⟨col', hcol', hres⟩ := chat_ok_elim hchat
    exact hrecs col' hcol' r (mem_of_mem_collectionQuery (hres ▸ hr))

/-- Claim C1 witness: deleting source id 0 (`a.txt`) from the two-source
state. -/
theorem delete_source_consistency_witness :
    (∀ s ∈ get_sources stAB', s.sid ≠ 0) ∧
    (∀ c', stAB'.collection = some c' → ∀ r ∈ c'.records, r.source ≠ "a.txt") ∧
    (∀ encode d req results prompt,
      chat encode d stAB' req = .ok (results, prompt) →
      ∀ r ∈ results, r.source ≠ "a.txt") :=
  delete_source_consistency stAB stAB' 0 srcA rfl rfl

/-- Claim C2 counterexample: with the collection uninitialized,
`delete_source` does not fail with a store-unavailable condition — it
succeeds and removes the source from the registry — and
`clear_all_sources` likewise succeeds and empties the registry. -/
theorem uninitialized_delete_no_failfast :
    delete_source stNoCol 0 = .ok ⟨none, [], 5⟩ ∧
    clear_all_sources stNoCol = ⟨none, [], 5⟩ ∧
    ∀ e : HTTPError, delete_source stNoCol 0 ≠ .error e := by
  refine ⟨rfl, rfl, fun e h => ?_⟩
  rw [show delete_source stNoCol 0 = .ok ⟨none, [], 5⟩ from rfl] at h
  exact Except.noConfusion h

/-- Claim C2 amended: `add_texts_to_chroma` and `chat` fail fast with the
500 store-unavailable error when the collection is uninitialized, but
`delete_source` (on a known id) and `clear_all_sources` do not check
initialization: they skip the store deletion and still mutate the
registry, succeeding. -/
theorem uninitialized_store_behavior
    (st : AppState) (sid : Nat) (src : Source)
    (hnone : st.collection = none)
    (hfind : st.added_sources.find? (fun s => s.sid == sid) = some src) :
    (∀ split encode text nm knd,
      add_texts_to_chroma split encode st text nm knd =
        .error ⟨500, "Chroma DB collection is not initialized."⟩) ∧
    (∀ encode d req,
      chat encode d st req = .error ⟨500, "Chroma DB collection is not initialized."⟩) ∧
    delete_source st sid =
      .ok { st with added_sources := st.added_sources.filter (fun s => s.sid != sid) } ∧
    clear_all_sources st = { st with added_sources := [] } := by
  refine ⟨?_, ?_, ?_, ?_⟩
  · intro split encode text nm knd
    simp only [add_texts_to_chroma, hnone]
  · intro encode d req
    simp only [chat, hnone]
  · have h1 : delete_source st sid =
        .ok { st with
              collection := st.collection.map (fun c => deleteWhereSource c src.name)
              added_sources := st.added_sources.filter (fun s => s.sid != sid) } := by
      simp only [delete_source, hfind]
    rw [h1, hnone]
    rfl
  · simp only [clear_all_sources, hnone]

/-- Claim C2 amended witness: the concrete uninitialized one-source
state. -/
theorem uninitialized_store_behavior_witness :
    delete_source stNoCol 0 =
      .ok { stNoCol with
            added_sources := stNoCol.added_sources.filter (fun s => s.sid != 0) } ∧
    clear_all_sources stNoCol = { stNoCol with added_sources := [] } ∧
    add_texts_to_chroma sampleSplit sampleEncode stNoCol "hello" "doc.txt" "file" =
      .error ⟨500, "Chroma DB collection is not initialized."⟩ :=
  ⟨(uninitialized_store_behavior stNoCol 0 ⟨0, "a.txt", "file"⟩ rfl rfl).2.2.1,
   (uninitialized_store_behavior stNoCol 0 ⟨0, "a.txt", "file"⟩ rfl rfl).2.2.2,
   (uninitialized_store_behavior stNoCol 0 ⟨0, "a.txt", "file"⟩ rfl rfl).1
     sampleSplit sampleEncode "hello" "doc.txt" "file"⟩

/-- Claim C3 counterexample: with the store uninitialized, a blank-text
ingest fails with the 500 store-unavailable error — the initialization
check precedes the blank-text check — not with the 400 empty-content
error the claim names. -/
theorem empty_ingest_wrong_error_uninitialized :
    add_texts_to_chroma sampleSplit sampleEncode stNoCol "" "empty.txt" "file" =
      .error ⟨500, "Chroma DB collection is not initialized."⟩ ∧
    add_texts_to_chroma sampleSplit sampleEncode stNoCol "" "empty.txt" "file" ≠
      .error ⟨400, "No extractable text found."⟩ := by
  refine ⟨rfl, fun h => ?_⟩
  rw [show add_texts_to_chroma sampleSplit sampleEncode stNoCol "" "empty.txt" "file" =
      .error ⟨500, "Chroma DB collection is not initialized."⟩ from rfl] at h
  have h5 := congrArg HTTPError.status (Except.error.inj h)
  exact absurd h5 (by decide)

/-- Claim C3 amended: with the store initialized, any ingest whose text is
empty or whitespace-only after stripping fails with the 400 empty-content
error (raised before any mutation, so no Source or Chunk is produced). -/
theorem empty_ingest_rejected
    (split : String → List String) (encode : List String → List (List Int))
    (st : AppState) (c : Collection) (text nm knd : String)
    (hcol : st.collection = some c) (hblank : strip text = "") :
    add_texts_to_chroma split encode st text nm knd =
      .error ⟨400, "No extractable text found."⟩ := by
  simp only [add_texts_to_chroma, hcol, hblank]
  simp

/-- Claim C3 amended witness: ingesting a whitespace-only text into the
initialized two-source state. -/
theorem empty_ingest_rejected_witness :
    add_texts_to_chroma sampleSplit sampleEncode stAB " " "empty.txt" "file" =
      .error ⟨400, "No extractable text found."⟩ :=
  empty_ingest_rejected sampleSplit sampleEncode stAB ⟨[recA, recB]⟩ " " "empty.txt" "file"
    rfl rfl

/-- Claim C4: a successful ingest returns the number of chunks created,
that number is at least 1, exactly one new Source entry carrying the name
and kind is appended to the registry, and the collection grows by exactly
that many records. -/
theorem ingest_returns_chunk_count
    (split : String → List String) (encode : List String → List (List Int))
    (st : AppState) (text nm knd : String) (n : Nat) (st' : AppState)
    (h : add_texts_to_chroma split encode st text nm knd = .ok (n, st')) :
    n = (split text).length ∧ 1 ≤ n ∧
    st'.added_sources = st.added_sources ++ [⟨st.nextId + n, nm, knd⟩] ∧
    ∀ c, st.collection = some c →
      ∃ c', st'.collection = some c' ∧ c'.records.length = c.records.length + n := by
  obtain ⟨col, hc, hblank, hsplit, hn, hst'⟩ := add_texts_ok_elim h
  subst hn
  refine ⟨rfl, List.length_pos.mpr hsplit, ?_, ?_⟩
  · rw [hst']
  · intro c hcsome
    rw [hc] at hcsome
    cases Option.some.inj hcsome
    refine ⟨_, by rw [hst'], ?_⟩
    simp

/-- Claim C4 witness: ingesting the one-chunk text "hello" into the
two-source state. -/
theorem ingest_returns_chunk_count_witness :
    1 = (sampleSplit "hello").length ∧ 1 ≤ 1 ∧
    stC4'.added_sources = stAB.added_sources ++ [⟨stAB.nextId + 1, "doc.txt", "file"⟩] ∧
    (∀ c, stAB.collection = some c →
      ∃ c', stC4'.collection = some c' ∧ c'.records.length = c.records.length + 1) :=
  ingest_returns_chunk_count sampleSplit sampleEncode stAB "hello" "doc.txt" "file" 1 stC4'
    rfl

/-- Claim C5 counterexample: a listed source entry carries only an opaque
id, the name and the type; ingestions of `doc.txt` producing 1 and 2
chunks yield listings that agree on everything except the opaque
generated id, so the listing holds no chunk_count equal to the number of
chunks produced. -/
theorem list_entry_has_no_chunk_count :
    add_texts_to_chroma sampleSplit sampleEncode stEmptyCol "one" "doc.txt" "file" =
      .ok (1, stC5a) ∧
    add_texts_to_chroma sampleSplit sampleEncode stEmptyCol "one\n\ntwo" "doc.txt" "file" =
      .ok (2, stC5b) ∧
    (1 : Nat) ≠ 2 ∧
    (get_sources stC5a).map (fun s => (s.name, s.srcType)) =
      (get_sources stC5b).map (fun s => (s.name, s.srcType)) :=
  ⟨rfl, rfl, by decide, rfl⟩

/-- Claim C5 amended: ingesting `doc.txt` of kind `file` into an empty
registry and then listing returns exactly one entry, with name `doc.txt`
and type `file` (the entry has no chunk-count field; the chunk count is
only the ingest call's return value). -/
theorem ingest_then_list_roundtrip
    (split : String → List String) (encode : List String → List (List Int))
    (st : AppState) (text : String) (n : Nat) (st' : AppState)
    (hempty : st.added_sources = [])
    (h : add_texts_to_chroma split encode st text "doc.txt" "file" = .ok (n, st')) :
    get_sources st' = [⟨st.nextId + n, "doc.txt", "file"⟩] := by
  obtain ⟨col, hc, hblank, hsplit, hn, hst'⟩ := add_texts_ok_elim h
  subst hn
  rw [hst']
  simp [get_sources, hempty]

/-- Claim C5 amended witness: ingesting "one" into the empty state and
listing. -/
theorem ingest_then_list_roundtrip_witness :
    get_sources stC5a = [⟨stEmptyCol.nextId + 1, "doc.txt", "file"⟩] :=
  ingest_then_list_roundtrip sampleSplit sampleEncode stEmptyCol "one" 1 stC5a rfl rfl

/-- Claim C6: with the store initialized, `chat` succeeds and assembles
the fixed-template prompt from the retrieved document texts joined in the
store's returned similarity order by the separator; an empty collection
still yields a successful prompt with empty context rather than a
failure. -/
theorem chat_assembles_context
    (encode : List String → List (List Int)) (d : List Int → List Int → Int)
    (st : AppState) (col : Collection) (req : ChatRequest)
    (hcol : st.collection = some col) :
    chat encode d st req =
      .ok (collectionQuery d col ((encode [req.message]).getD 0 []) 5,
        buildPrompt
          (String.intercalate "\n\n---\n\n"
            ((collectionQuery d col ((encode [req.message]).getD 0 []) 5).map
              (fun r => r.document)))
          req.message) ∧
    (col.records = [] → chat encode d st req = .ok ([], buildPrompt "" req.message)) := by
  have hchat : chat encode d st req =
      .ok (collectionQuery d col ((encode [req.message]).getD 0 []) 5,
        buildPrompt
          (String.intercalate "\n\n---\n\n"
            ((collectionQuery d col ((encode [req.message]).getD 0 []) 5).map
              (fun r => r.document)))
          req.message) := by
    simp only [chat, hcol]
  refine ⟨hchat, fun hnil => ?_⟩
  rw [hchat]
  simp [collectionQuery, hnil, String.intercalate]

/-- Claim C6 witness: a chat against the two-record state, and a chat
against the empty collection assembling the empty context. -/
theorem chat_assembles_context_witness :
    chat sampleEncode sampleDist stAB ⟨"query", []⟩ =
      .ok (collectionQuery sampleDist ⟨[recA, recB]⟩ ((sampleEncode ["query"]).getD 0 []) 5,
        buildPrompt
          (String.intercalate "\n\n---\n\n"
            ((collectionQuery sampleDist ⟨[recA, recB]⟩
                ((sampleEncode ["query"]).getD 0 []) 5).map
              (fun r => r.document)))
          "query") ∧
    ((⟨[]⟩ : Collection).records = [] →
      chat sampleEncode sampleDist stEmptyCol ⟨"q", []⟩ = .ok ([], buildPrompt "" "q")) :=
  ⟨(chat_assembles_context sampleEncode sampleDist stAB ⟨[recA, recB]⟩ ⟨"query", []⟩ rfl).1,
   (chat_assembles_context sampleEncode sampleDist stEmptyCol ⟨[]⟩ ⟨"q", []⟩ rfl).2⟩

/-- Claim C7: deleting an unknown source id fails with the 404 not-found
error — a status distinct from the 500 backend errors — and produces no
success state, so the registry and the store are untouched. -/
theorem delete_unknown_source_not_found
    (st : AppState) (sid : Nat)
    (habsent : st.added_sources.find? (fun s => s.sid == sid) = none) :
    delete_source st sid = .error ⟨404, "Source not found."⟩ ∧
    (404 : Nat) ≠ 500 ∧
    ∀ st', delete_source st sid ≠ .ok st' := by
  have h1 : delete_source st sid = .error ⟨404, "Source not found."⟩ := by
    simp only [delete_source, habsent]
  exact ⟨h1, by decide, fun st' h => by rw [h1] at h; exact Except.noConfusion h⟩

/-- Claim C7 witness: deleting the absent id 99 from the two-source
state. -/
theorem delete_unknown_source_not_found_witness :
    delete_source stAB 99 = .error ⟨404, "Source not found."⟩ ∧
    (404 : Nat) ≠ 500 ∧
    ∀ st', delete_source stAB 99 ≠ .ok st' :=
  delete_unknown_source_not_found stAB 99 (by decide)

/-- Claim C8: `clear_all_sources` always leaves the listing empty, and a
second call in succession is a no-op: it returns the same state. -/
theorem clear_all_sources_idempotent (st : AppState) :
    get_sources (clear_all_sources st) = [] ∧
    clear_all_sources (clear_all_sources st) = clear_all_sources st := by
  cases hc : st.collection with
  | none => simp [clear_all_sources, get_sources, hc]
  | some col => simp [clear_all_sources, get_sources, hc]

/-- Claim C9: with two registry entries sharing one name under distinct
ids, deleting one id removes every collection record carrying that name —
including the chunks ingested under the other id — while the other entry
remains listed: the registry/store name-set correspondence is broken. -/
theorem duplicate_name_delete_breaks_correspondence
    (st st' : AppState) (sid : Nat) (src other : Source)
    (hfind : st.added_sources.find? (fun s => s.sid == sid) = some src)
    (hother : other ∈ st.added_sources)
    (hid : other.sid ≠ sid)
    (hname : other.name = src.name)
    (hdel : delete_source st sid = .ok st') :
    other ∈ get_sources st' ∧
    (∀ c', st'.collection = some c' →
      other.name ∉ c'.records.map (fun r => r.source)) := by
  have hst' := delete_source_ok_elim hfind hdel
  constructor
  · rw [hst']
    simp only [get_sources]
    exact List.mem_filter.mpr ⟨hother, by simpa using hid⟩
  · intro c' hc' hmem
    rw [hst'] at hc'
    cases hcol : st.collection with
    | none => rw [hcol] at hc'; exact absurd hc' (by simp)
    | some c =>
        rw [hcol] at hc'
        have hceq : deleteWhereSource c src.name = c' := Option.some.inj hc'
        rw [← hceq] at hmem
        obtain ⟨r, hr, hrs⟩ := List.mem_map.mp hmem
        exact mem_deleteWhereSource hr (hrs.trans hname)

/-- Claim C9 witness: two sources named `dup.txt` under ids 0 and 1 with
one chunk each; deleting id 0 removes both chunks while id 1 stays
listed. -/
theorem duplicate_name_delete_witness :
    (⟨1, "dup.txt", "file"⟩ : Source) ∈ get_sources stDup' ∧
    (∀ c', stDup'.collection = some c' →
      "dup.txt" ∉ c'.records.map (fun r => r.source)) :=
  duplicate_name_delete_breaks_correspondence stDup stDup' 0
    ⟨0, "dup.txt", "file"⟩ ⟨1, "dup.txt", "file"⟩ rfl (by decide) (by decide) rfl rfl

/-- Claim C10: the history field never influences retrieval or prompt
assembly — two chat requests with equal message fields against the same
state yield identical retrieved records and prompt. -/
theorem chat_ignores_history
    (encode : List String → List (List Int)) (d : List Int → List Int → Int)
    (st : AppState) (m : String) (h1 h2 : List ChatMessage) :
    chat encode d st ⟨m, h1⟩ = chat encode d st ⟨m, h2⟩ := rfl

end RAGApp
